import Mathlib

/-!
Verification of the medisync browser client (src/static/script.js and the
legacy copy src/unnamed/part_000) against its natural-language specification.

The JavaScript is shallowly embedded: numbers are modelled as rationals
(the computations at issue are exact on them), JS strings as Lean strings,
the catalog object as an association list, fetch calls as elements of an
explicit Request type, and DOM-throwing property accesses on undefined as
Except errors.  Each definition mirrors one function or statement of the
source, cited by line in its doc comment.
-/

namespace MediSync

/-- JS Math.round: rounds to the nearest integer, halves toward plus
infinity, i.e. floor of x + 1/2. -/
def jsRound (q : ℚ) : ℤ := ⌊q + 1/2⌋

/-- JS truncation toward zero, as used by the percent remainder operator. -/
def jsTrunc (q : ℚ) : ℤ := if 0 ≤ q then ⌊q⌋ else ⌈q⌉

/-- JS percent operator on numbers: remainder with the sign of the dividend,
a percent b = a - b * trunc(a / b). -/
def jsMod (a b : ℚ) : ℚ := a - b * jsTrunc (a / b)

/-- Decimal digits of a natural number, most significant first; fuel-based
so that the kernel can evaluate it. Fuel n+1 always suffices for input n. -/
def natDigitsAux : Nat → Nat → List Char
  | 0, _ => []
  | fuel+1, n =>
    if n < 10 then [Nat.digitChar n]
    else natDigitsAux fuel (n / 10) ++ [Nat.digitChar (n % 10)]

/-- JS Number.prototype.toString for a nonnegative integer. -/
def natToStr (n : Nat) : String := ⟨natDigitsAux (n+1) n⟩

/-- JS Number.prototype.toString for an integer. -/
def jsIntToStr (i : ℤ) : String :=
  if i < 0 then "-" ++ natToStr i.natAbs else natToStr i.toNat

/-- JS String.prototype.padStart(2, "0"): left-pad with zeros to length 2. -/
def padStart2 (s : String) : String :=
  if s.length < 2 then ⟨List.replicate (2 - s.length) '0'⟩ ++ s else s

/-- The string assigned to the undeclared global dur_sec by fancytime
(script.js line 23): Math.round(s % 60).toString().padStart(2, "0"). -/
def dur_secOf (s : ℚ) : String := padStart2 (jsIntToStr (jsRound (jsMod s 60)))

/-- The string assigned to the undeclared global dur_min by fancytime
(script.js line 24): Math.round(s / 40).toString().padStart(2, "0").
Note the source divides by 40, not 60. -/
def dur_minOf (s : ℚ) : String := padStart2 (jsIntToStr (jsRound (s / 40)))

/-- fancytime (src/static/script.js lines 22-26): returns dur_min ++ ":" ++
dur_sec. The two locals are assigned without let or var; the stateful
version fancytimeS below records that side effect. -/
def fancytime (s : ℚ) : String := dur_minOf s ++ ":" ++ dur_secOf s

/-- fancyname (src/static/script.js lines 28-30): decorates the name, the
first 8 characters of the hash (String.prototype.slice(0, 8)), and
fancytime of the duration with HTML entities. -/
def fancyname (name hash : String) (duration : ℚ) : String :=
  name ++ " <b>&#x2039;" ++ hash.take 8 ++ "&#x203a;</b>&#x3014;<u>" ++
    fancytime duration ++ "</u>&#x3015;"

/-- fancyname of the legacy copy (src/unnamed/part_000 lines 21-25): same
duration arithmetic (Math.round(duration % 60) and the same division by
40), but plain-text parentheses and brackets around the fingerprint and the
duration. -/
def part000_fancyname (name hash : String) (duration : ℚ) : String :=
  let dur_sec := padStart2 (jsIntToStr (jsRound (jsMod duration 60)))
  let dur_min := padStart2 (jsIntToStr (jsRound (duration / 40)))
  name ++ " (" ++ hash.take 8 ++ ") [" ++ dur_min ++ ":" ++ dur_sec ++ "]"

/-- A track as served by GET /api/musics: a name and a duration in seconds. -/
structure Track where
  name : String
  duration : ℚ
deriving DecidableEq

/-- The module-level musics object (script.js line 20): a mapping from
identifier (content hash) to track, modelled as an association list. -/
abbrev Catalog := List (String × Track)

/-- JS property read musics[h]: some track when the key is present,
none (undefined) otherwise. -/
def Catalog.find (c : Catalog) (h : String) : Option Track :=
  (c.find? (fun p => p.1 = h)).map (fun p => p.2)

/-- JS parseInt on a string: parses the longest leading run of decimal
digits; none models NaN. Sign, whitespace and hex prefixes never occur on
the dataset strings this client feeds to parseInt, so they are not
modelled. -/
def parseIntNat (s : String) : Option Nat :=
  let ds := s.data.takeWhile Char.isDigit
  if ds.isEmpty then none
  else some (ds.foldl (fun a c => a * 10 + (c.toNat - 48)) 0)

/-- Body of the enqueue POST and of the delete DELETE on /api/queue: the
object literal has a single key, hash (script.js lines 41 and 63). -/
structure HashBody where
  hash : String
deriving DecidableEq

/-- Body of POST /api/queue/reorder (script.js line 75): the two indices
read back by parseInt, serialized under the JSON keys from and to (both
Lean keywords, hence the Idx suffix here); none models NaN, serialized as
null. -/
structure ReorderBody where
  fromIdx : Option Nat
  toIdx : Option Nat
deriving DecidableEq

/-- One HTTP request issued by the client, one constructor per fetch call
site in the source. -/
inductive Request
  | getMusics
  | getQueue
  | getCurrent
  | getAutoplay
  | postQueue (body : HashBody)
  | deleteQueue (body : HashBody)
  | postReorder (body : ReorderBody)
  | postPlay
  | postPause
  | postAutoplaySet (body : Bool)
deriving DecidableEq

/-- One rendered queue row (script.js lines 52-79): the identifier captured
by the delete and enqueue closures, the stringified position stored in
dataset.index, the stringified position the dragstart handler writes into
the dataTransfer, the innerHTML label, and the request the delete button
issues. -/
structure QueueRow where
  hash : String
  indexAttr : String
  dragData : String
  html : String
  deleteRequest : Request
deriving DecidableEq

/-- The row built for identifier h at position i (script.js lines 53-66):
dataset.index = i, dragstart stores i, innerHTML via fancyname on the
catalog entry, delete button body {hash: h}. -/
def mkRow (i : Nat) (h : String) (t : Track) : QueueRow :=
  { hash := h
    indexAttr := natToStr i
    dragData := natToStr i
    html := fancyname t.name h t.duration
    deleteRequest := .deleteQueue ⟨h⟩ }

/-- The forEach render loop of refreshQueue (script.js lines 52-80),
starting at position i: each row reads musics[h].name, which throws a
TypeError when h is absent from the catalog. The result is the list of
rows appended before any throw, together with the error if one occurred;
rows after a missing identifier are never rendered. -/
def renderRowsFrom (musics : Catalog) : Nat → List String → List QueueRow × Option String
  | _, [] => ([], none)
  | i, h :: rest =>
    match musics.find h with
    | none => ([], some "TypeError: cannot read properties of undefined")
    | some t =>
      let tail := renderRowsFrom musics (i+1) rest
      (mkRow i h t :: tail.1, tail.2)

/-- The rows rendered by refreshQueue for a queue snapshot, positions
starting at 0 as in data.forEach((h, i) => ...). -/
def renderQueueRows (musics : Catalog) (queue : List String) : List QueueRow × Option String :=
  renderRowsFrom musics 0 queue

/-- Response of GET /api/current (script.js lines 83-84): hash (empty when
nothing is playing), paused flag, elapsed position, duration. -/
structure NpData where
  hash : String
  paused : Bool
  position : ℚ
  duration : ℚ
deriving DecidableEq

/-- The play or pause glyph (script.js line 88). -/
def pauseIconOf (paused : Bool) : String :=
  if paused then "&#x23F8;" else "&#x23F5;"

/-- The now-playing update of script.js (lines 88-91): when the hash is
empty (falsy) the element shows Nothing and the title is reset to MusiSync;
otherwise the element and title are built from musics[hash], whose .name
read throws when the hash is absent from the catalog. Returns the pair
(now-playing innerHTML, title text). -/
def npUpdate (musics : Catalog) (np : NpData) : Except String (String × String) :=
  if np.hash = "" then .ok ("Nothing", "MusiSync")
  else
    match musics.find np.hash with
    | none => .error "TypeError: cannot read properties of undefined"
    | some t =>
      .ok (pauseIconOf np.paused ++ " " ++ fancytime np.position ++ " | " ++
             fancyname t.name np.hash np.duration,
           "MusiSync - " ++ t.name)

/-- The title expression of the legacy copy (src/unnamed/part_000 line 87):
"MusiSync - " + npData.hash ? musics[npData.hash].name : "Nothing".
Because + binds tighter than the conditional, the tested condition is the
always-nonempty (hence truthy) string "MusiSync - " ++ hash, so the
expression always reads musics[hash].name, which throws when the hash
(in particular the empty one) is absent from the catalog. The enclosing
statement also assigns to a const binding, a further TypeError not modelled
here. -/
def part000_titleExpr (musics : Catalog) (np : NpData) : Except String String :=
  if ("MusiSync - " ++ np.hash) = "" then .ok "Nothing"
  else
    match musics.find np.hash with
    | none => .error "TypeError: cannot read properties of undefined"
    | some t => .ok t.name

/-- The client-held view state: the catalog cache and the rendered DOM
pieces the spec names (queue list, now-playing line, page title). -/
structure ClientState where
  musics : Catalog
  queueRows : List QueueRow
  nowPlayingHtml : String
  pageTitle : String
deriving DecidableEq

/-- The two fetches a refreshQueue pass issues (script.js lines 48 and 83):
the queue snapshot, then the current-track status. -/
def refreshQueueRequests : List Request := [.getQueue, .getCurrent]

/-- The drop handler (script.js lines 71-77): parses the dragstart payload
and the dataset.index of the row under the drop point, POSTs them verbatim
as {from, to}, then refreshes the queue. It performs no local reordering:
the client state is returned unchanged. -/
def dropRun (dragData targetIndex : String) (st : ClientState) :
    List Request × ClientState :=
  ([.postReorder ⟨parseIntNat dragData, parseIntNat targetIndex⟩] ++ refreshQueueRequests, st)

/-- The delete button handler (script.js lines 61-65): DELETE /api/queue
with body {hash: h}, then refreshQueue. No position accompanies the
identifier, and the handler itself mutates no local state. -/
def deleteClickRun (h : String) (st : ClientState) : List Request × ClientState :=
  ([.deleteQueue ⟨h⟩] ++ refreshQueueRequests, st)

/-- The autoplay checkbox change listener (script.js lines 11-19): a single
POST /api/autoplay_set whose body is JSON.stringify of the checked boolean.
No refresh follows and no local state is touched. -/
def autoplayChangeRun (checked : Bool) (st : ClientState) : List Request × ClientState :=
  ([.postAutoplaySet checked], st)

/-- Entry points of src/static/script.js that issue requests: the top-level
statements run at page load (lines 98-99), the two setTimeout callbacks
(lines 101-106), and the event handlers installed by the renderers. -/
inductive ScriptEntry
  | pageLoad
  | timerCatalog
  | timerQueue
  | musicClick (h : String)
  | deleteClick (h : String)
  | dropOn (dragData targetIndex : String)
  | autoplayChange (b : Bool)
  | playClick
  | pauseClick
deriving DecidableEq

/-- The requests each script.js entry point issues (in issue order, for a
pass whose rendering does not throw). atp_get (lines 1-6) is defined in
this file of the source but never invoked, so GET /api/autoplay_get appears
nowhere. -/
def scriptRequestsOf : ScriptEntry → List Request
  | .pageLoad => [.getMusics] ++ refreshQueueRequests
  | .timerCatalog => [.getMusics]
  | .timerQueue => refreshQueueRequests
  | .musicClick h => [.postQueue ⟨h⟩] ++ refreshQueueRequests
  | .deleteClick h => [.deleteQueue ⟨h⟩] ++ refreshQueueRequests
  | .dropOn d t => [.postReorder ⟨parseIntNat d, parseIntNat t⟩] ++ refreshQueueRequests
  | .autoplayChange b => [.postAutoplaySet b]
  | .playClick => [.postPlay] ++ refreshQueueRequests
  | .pauseClick => [.postPause] ++ refreshQueueRequests

/-- Entry points of the legacy copy src/unnamed/part_000: the same handlers
but no timers at all, and page load additionally runs
console.log(atp_get()) (line 9). -/
inductive Part000Entry
  | pageLoad
  | musicClick (h : String)
  | deleteClick (h : String)
  | dropOn (dragData targetIndex : String)
  | autoplayChange (b : Bool)
  | playClick
  | pauseClick
deriving DecidableEq

/-- The requests each part_000 entry point issues: page load (lines 9 and
94-95) fetches the autoplay flag once, then the catalog and the
queue+status. -/
def part000RequestsOf : Part000Entry → List Request
  | .pageLoad => [.getAutoplay, .getMusics] ++ refreshQueueRequests
  | .musicClick h => [.postQueue ⟨h⟩] ++ refreshQueueRequests
  | .deleteClick h => [.deleteQueue ⟨h⟩] ++ refreshQueueRequests
  | .dropOn d t => [.postReorder ⟨parseIntNat d, parseIntNat t⟩] ++ refreshQueueRequests
  | .autoplayChange b => [.postAutoplaySet b]
  | .playClick => [.postPlay] ++ refreshQueueRequests
  | .pauseClick => [.postPause] ++ refreshQueueRequests

/-- Kinds of timer-driven refresh the spec speaks about. -/
inductive RefreshKind
  | catalog
  | queueStatus
deriving DecidableEq

/-- The timer registrations of script.js lines 101-106: setTimeout(() =>
loadMusics(), 5000) and setTimeout(() => refreshQueue(), 1000). setTimeout
registers a one-shot callback; neither callback re-registers itself and no
setInterval appears in the source. -/
def scriptTimerRegs : List (Nat × RefreshKind) :=
  [(5000, .catalog), (1000, .queueStatus)]

/-- How many timer-driven refreshes of kind k have run by time t
(milliseconds after load): each one-shot registration has fired exactly
when its delay has elapsed. -/
def timerFiringsBy (k : RefreshKind) (t : Nat) : Nat :=
  (scriptTimerRegs.filter (fun r => r.2 == k)).countP (fun r => r.1 ≤ t)

/-- Module-level mutable bindings of script.js touched by the formatter:
the undeclared globals dur_sec and dur_min (none models not-yet-created)
and the musics catalog (line 20). -/
structure JsGlobals where
  dur_sec : Option String
  dur_min : Option String
  musics : Catalog
deriving DecidableEq

/-- fancytime with its side effect (script.js lines 22-26): the assignments
dur_sec = ... and dur_min = ... lack let or var, so in sloppy mode each
call writes the two module globals. -/
def fancytimeS (s : ℚ) (g : JsGlobals) : String × JsGlobals :=
  (fancytime s, { g with dur_sec := some (dur_secOf s), dur_min := some (dur_minOf s) })

/-- fancyname with its side effect (script.js lines 28-30): it calls
fancytime, inheriting the writes to dur_sec and dur_min. -/
def fancynameS (name hash : String) (duration : ℚ) (g : JsGlobals) :
    String × JsGlobals :=
  (fancyname name hash duration, (fancytimeS duration g).2)

/-- An empty client state for concrete instantiations. -/
def st0 : ClientState := ⟨[], [], "", ""⟩

/-- A three-track catalog for concrete instantiations. -/
def m3 : Catalog := [("a", ⟨"A", 1⟩), ("b", ⟨"B", 2⟩), ("c", ⟨"C", 3⟩)]

end MediSync

namespace MediSync

/-! Evaluation lemmas for the formatter at the inputs named by the spec. -/

theorem jsRound_jsMod_125_60 : jsRound (jsMod 125 60) = 5 := by
  unfold jsRound jsMod jsTrunc
  norm_num

theorem jsRound_div40_125 : jsRound ((125 : ℚ) / 40) = 3 := by
  unfold jsRound
  norm_num

theorem jsRound_jsMod_59_60 : jsRound (jsMod 59 60) = 59 := by
  unfold jsRound jsMod jsTrunc
  norm_num

theorem jsRound_div40_59 : jsRound ((59 : ℚ) / 40) = 1 := by
  unfold jsRound
  norm_num

theorem jsRound_jsMod_0_60 : jsRound (jsMod 0 60) = 0 := by
  unfold jsRound jsMod jsTrunc
  norm_num

theorem jsRound_div40_0 : jsRound ((0 : ℚ) / 40) = 0 := by
  unfold jsRound
  norm_num

theorem fancytime_125 : fancytime 125 = "03:05" := by
  unfold fancytime dur_minOf dur_secOf
  rw [jsRound_jsMod_125_60, jsRound_div40_125]
  rfl

theorem fancytime_59 : fancytime 59 = "01:59" := by
  unfold fancytime dur_minOf dur_secOf
  rw [jsRound_jsMod_59_60, jsRound_div40_59]
  rfl

theorem fancytime_0 : fancytime 0 = "00:00" := by
  unfold fancytime dur_minOf dur_secOf
  rw [jsRound_jsMod_0_60, jsRound_div40_0]
  rfl

/-! Digit strings: JS stringification of an index roundtrips through
parseInt, the pair of conversions the drag-and-drop handlers rely on. -/

theorem digitChar_isDigit : ∀ d < 10, (Nat.digitChar d).isDigit = true := by decide

theorem digitChar_toNat : ∀ d < 10, (Nat.digitChar d).toNat = 48 + d := by decide

theorem natDigitsAux_spec (fuel : Nat) : ∀ n, n < fuel →
    (∀ c ∈ natDigitsAux fuel n, c.isDigit = true) ∧
    natDigitsAux fuel n ≠ [] ∧
    ∀ a, (natDigitsAux fuel n).foldl (fun a c => a * 10 + (c.toNat - 48)) a
        = a * 10 ^ (natDigitsAux fuel n).length + n := by
  induction fuel with
  | zero => intro n hn; omega
  | succ fuel ih =>
    intro n hn
    by_cases h10 : n < 10
    · simp only [natDigitsAux, if_pos h10]
      refine ⟨?_, by simp, ?_⟩
      · intro c hc
        simp only [List.mem_singleton] at hc
        subst hc
        exact digitChar_isDigit n h10
      · intro a
        simp only [List.foldl_cons, List.foldl_nil, List.length_singleton,
          digitChar_toNat n h10, pow_one]
        omega
    · have hpos : 0 < n := by omega
      have hdiv : n / 10 < fuel := by
        have := Nat.div_lt_self hpos (by norm_num : 1 < 10)
        omega
      obtain ⟨hdig, hne, hfold⟩ := ih (n / 10) hdiv
      have hm10 : n % 10 < 10 := Nat.mod_lt _ (by norm_num)
      simp only [natDigitsAux, if_neg h10]
      refine ⟨?_, by simp [hne], ?_⟩
      · intro c hc
        rcases List.mem_append.mp hc with hc | hc
        · exact hdig c hc
        · simp only [List.mem_singleton] at hc
          subst hc
          exact digitChar_isDigit _ hm10
      · intro a
        rw [List.foldl_append, hfold a, List.length_append]
        simp only [List.foldl_cons, List.foldl_nil, List.length_singleton,
          digitChar_toNat _ hm10]
        have hdm := Nat.div_add_mod n 10
        have hsub : 48 + n % 10 - 48 = n % 10 := by omega
        rw [hsub, pow_add, pow_one]
        calc (a * 10 ^ (natDigitsAux fuel (n / 10)).length + n / 10) * 10 + n % 10
            = a * (10 ^ (natDigitsAux fuel (n / 10)).length * 10) +
                (10 * (n / 10) + n % 10) := by ring
          _ = a * (10 ^ (natDigitsAux fuel (n / 10)).length * 10) + n := by rw [hdm]

theorem parseIntNat_mk (l : List Char) (hne : l ≠ [])
    (hd : ∀ x ∈ l, x.isDigit = true) :
    parseIntNat ⟨l⟩ = some (l.foldl (fun a c => a * 10 + (c.toNat - 48)) 0) := by
  unfold parseIntNat
  rw [show (String.mk l).data = l from rfl, List.takeWhile_eq_self_iff.mpr hd]
  cases l with
  | nil => exact absurd rfl hne
  | cons c cs => rfl

/-- parseInt recovers the index that the renderer stringified into
dataset.index and into the dragstart payload. -/
theorem parseIntNat_natToStr (n : Nat) : parseIntNat (natToStr n) = some n := by
  obtain ⟨hdig, hne, hfold⟩ := natDigitsAux_spec (n+1) n (Nat.lt_succ_self n)
  unfold natToStr
  rw [parseIntNat_mk _ hne hdig, hfold 0]
  norm_num

/-! Structure of the rendered queue rows. -/

theorem renderRowsFrom_cons_none (m : Catalog) (s : Nat) (h : String)
    (rest : List String) (hf : m.find h = none) :
    renderRowsFrom m s (h :: rest)
      = ([], some "TypeError: cannot read properties of undefined") := by
  simp only [renderRowsFrom]
  rw [hf]

theorem renderRowsFrom_cons_some (m : Catalog) (s : Nat) (h : String)
    (rest : List String) (t : Track) (hf : m.find h = some t) :
    renderRowsFrom m s (h :: rest)
      = (mkRow s h t :: (renderRowsFrom m (s+1) rest).1,
         (renderRowsFrom m (s+1) rest).2) := by
  simp only [renderRowsFrom]
  rw [hf]

/-- Row k of a render that reached position k was built from the identifier
at position k of the queue snapshot, with the position stringified into its
drag metadata. -/
theorem renderRowsFrom_get (m : Catalog) :
    ∀ (q : List String) (s k : Nat)
      (hk : k < ((renderRowsFrom m s q).1).length),
    ∃ (hkq : k < q.length) (t : Track),
      m.find (q.get ⟨k, hkq⟩) = some t ∧
      ((renderRowsFrom m s q).1).get ⟨k, hk⟩ = mkRow (s + k) (q.get ⟨k, hkq⟩) t := by
  intro q
  induction q with
  | nil =>
    intro s k hk
    simp [renderRowsFrom] at hk
  | cons h rest ih =>
    intro s k hk
    cases hf : m.find h with
    | none =>
      rw [renderRowsFrom_cons_none m s h rest hf] at hk
      simp at hk
    | some t =>
      have hcons := renderRowsFrom_cons_some m s h rest t hf
      cases k with
      | zero =>
        refine ⟨by simp, t, by simpa using hf, ?_⟩
        have : ((renderRowsFrom m s (h :: rest)).1).get ⟨0, hk⟩ = mkRow s h t := by
          simp [hcons]
        rw [this, Nat.add_zero]
        rfl
      | succ k =>
        have hk2 : k < ((renderRowsFrom m (s+1) rest).1).length := by
          rw [hcons] at hk
          simpa using hk
        obtain ⟨hkq, t2, hfind, hget⟩ := ih (s+1) k hk2
        refine ⟨by simpa using hkq, t2, by simpa using hfind, ?_⟩
        have hrw : ((renderRowsFrom m s (h :: rest)).1).get ⟨k + 1, hk⟩
            = ((renderRowsFrom m (s+1) rest).1).get ⟨k, hk2⟩ := by
          simp [hcons]
        rw [hrw, hget]
        have hs : s + 1 + k = s + (k + 1) := by omega
        rw [hs]
        rfl

end MediSync

namespace MediSync

/-- C1: the claim states the duration string is pad2(floor(d/60)) ++ ":" ++
pad2(round(d mod 60)), with d=125 giving "02:05" and d=59 giving "00:59".
The code (fancytime, script.js line 24) divides by 40 for the minutes
component, so d=125 renders as "03:05" and d=59 as "01:59"; only d=0 agrees
with the claim. This confirms the defect the spec itself flags in section 9
(division by 40 instead of 60). -/
theorem c1_formatter_divergence :
    fancytime 125 = "03:05" ∧ fancytime 125 ≠ "02:05" ∧
    fancytime 59 = "01:59" ∧ fancytime 59 ≠ "00:59" ∧
    fancytime 0 = "00:00" := by
  refine ⟨fancytime_125, ?_, fancytime_59, ?_, fancytime_0⟩
  · rw [fancytime_125]; decide
  · rw [fancytime_59]; decide

/-- C2: the claim states that rendering a queue containing an identifier
absent from the catalog does not throw, renders a fallback label for that
row, and still renders the remaining rows. The code (script.js lines 57 and
90) reads musics[h].name without any guard: with catalog {a} and queue
[zz, a], the render throws a TypeError at the first row, no fallback is
produced, and the in-catalog row a is never rendered ((rows, error) =
([], some e)); the now-playing line likewise throws when its hash is
missing. -/
theorem c2_render_throws_on_missing :
    renderQueueRows [("a", ⟨"SongA", 185⟩)] ["zz", "a"]
      = ([], some "TypeError: cannot read properties of undefined") ∧
    npUpdate [("a", ⟨"SongA", 185⟩)] ⟨"zz", false, 0, 0⟩
      = .error "TypeError: cannot read properties of undefined" := by
  constructor
  · rfl
  · rfl

/-- C3: the claim states that for every n ≥ 1 an n-th timer-driven refresh
of each kind eventually occurs. The code registers each refresh with
setTimeout (one-shot), not setInterval, so at every time t at most one
timer-driven refresh of each kind has ever fired: the second one never
occurs. -/
theorem c3_timer_refresh_at_most_once (k : RefreshKind) (t : Nat) :
    timerFiringsBy k t ≤ 1 := by
  cases k <;>
    simp only [timerFiringsBy, scriptTimerRegs, List.filter, List.countP,
      List.countP.go, Bool.cond_eq_ite] <;>
    split <;> simp

/-- C4 counterexample: the claim states the autoplay flag is read exactly
once at page load via atp_get. In src/static/script.js the page-load
statements (lines 98-106) never invoke atp_get: the load sequence issues
zero GET /api/autoplay_get requests, not one. -/
theorem c4_counterexample :
    (scriptRequestsOf .pageLoad).count Request.getAutoplay = 0 ∧
    ¬ (scriptRequestsOf .pageLoad).count Request.getAutoplay = 1 := by
  constructor
  · rfl
  · decide

/-- C4 amended: in src/static/script.js the dedicated getter atp_get is
defined but never invoked, so no entry point ever issues GET
/api/autoplay_get; in the legacy copy part_000 the flag is read exactly
once, at page load (line 9), and no other entry point re-polls it. -/
theorem c4_autoplay_polling (e : ScriptEntry) (e2 : Part000Entry) :
    (scriptRequestsOf e).count Request.getAutoplay = 0 ∧
    (part000RequestsOf e2).count Request.getAutoplay
      = (if e2 = .pageLoad then 1 else 0) := by
  constructor
  · cases e <;> rfl
  · cases e2 <;> rfl

/-- C5: on every drop event over a rendered queue snapshot, the reorder
request body carries verbatim the position index the dragstart handler
stored for the dragged row and the position index attached to the row under
the drop point, followed only by the queue+status refresh; the client state
is returned unchanged (no local reordering). In particular for a rendered
queue [a, b, c], dragging position 0 onto position 2 issues
{from: 0, to: 2}. -/
theorem c5_reorder_body_verbatim (m : Catalog) (q : List String) (i j : Nat)
    (hi : i < ((renderQueueRows m q).1).length)
    (hj : j < ((renderQueueRows m q).1).length) (st : ClientState) :
    dropRun (((renderQueueRows m q).1).get ⟨i, hi⟩).dragData
        (((renderQueueRows m q).1).get ⟨j, hj⟩).indexAttr st
      = ([.postReorder ⟨some i, some j⟩, .getQueue, .getCurrent], st) := by
  obtain ⟨hiq, ti, _, hgi⟩ := renderRowsFrom_get m q 0 i hi
  obtain ⟨hjq, tj, _, hgj⟩ := renderRowsFrom_get m q 0 j hj
  show dropRun (((renderRowsFrom m 0 q).1).get ⟨i, hi⟩).dragData
      (((renderRowsFrom m 0 q).1).get ⟨j, hj⟩).indexAttr st = _
  rw [hgi, hgj]
  show dropRun (natToStr (0 + i)) (natToStr (0 + j)) st = _
  rw [Nat.zero_add, Nat.zero_add]
  unfold dropRun
  rw [parseIntNat_natToStr, parseIntNat_natToStr]
  rfl

/-- Witness for C5: queue [a, b, c], dragging position 0 onto position 2
issues exactly {from: 0, to: 2} followed by the refresh fetches. -/
theorem c5_witness :
    dropRun (((renderQueueRows m3 ["a", "b", "c"]).1).get ⟨0, by decide⟩).dragData
        (((renderQueueRows m3 ["a", "b", "c"]).1).get ⟨2, by decide⟩).indexAttr st0
      = ([.postReorder ⟨some 0, some 2⟩, .getQueue, .getCurrent], st0) :=
  c5_reorder_body_verbatim m3 ["a", "b", "c"] 0 2 (by decide) (by decide) st0

/-- C6: the delete control of every rendered row issues a removal request
whose body is {hash: identifier} with no position component (the HashBody
type of the request has a single field), followed by the queue+status
refresh, leaving local state unchanged. The request depends only on the
identifier at the row position, so duplicate occurrences of one identifier
issue identical bodies. -/
theorem c6_delete_keyed_by_hash (m : Catalog) (q : List String) (k : Nat)
    (hk : k < ((renderQueueRows m q).1).length) (hkq : k < q.length)
    (st : ClientState) :
    deleteClickRun (((renderQueueRows m q).1).get ⟨k, hk⟩).hash st
      = ([.deleteQueue ⟨q.get ⟨k, hkq⟩⟩, .getQueue, .getCurrent], st) := by
  obtain ⟨hkq2, t, _, hget⟩ := renderRowsFrom_get m q 0 k hk
  show deleteClickRun (((renderRowsFrom m 0 q).1).get ⟨k, hk⟩).hash st = _
  rw [hget]
  rfl

/-- Witness for C6: queue [a, b, a]; deleting via the row at position 2 and
via the row at position 0 both issue exactly {hash: a}. -/
theorem c6_witness :
    deleteClickRun (((renderQueueRows m3 ["a", "b", "a"]).1).get ⟨2, by decide⟩).hash st0
      = ([.deleteQueue ⟨"a"⟩, .getQueue, .getCurrent], st0) ∧
    deleteClickRun (((renderQueueRows m3 ["a", "b", "a"]).1).get ⟨0, by decide⟩).hash st0
      = ([.deleteQueue ⟨"a"⟩, .getQueue, .getCurrent], st0) :=
  ⟨c6_delete_keyed_by_hash m3 ["a", "b", "a"] 2 (by decide) (by decide) st0,
   c6_delete_keyed_by_hash m3 ["a", "b", "a"] 0 (by decide) (by decide) st0⟩

/-- C7 counterexample: the claim states that evaluating the formatter
leaves all global variables unchanged. fancytime assigns the undeclared
globals dur_sec and dur_min (script.js lines 23-24, no let or var in sloppy
mode), so evaluating it at 125 from the pristine global state produces a
different global state. -/
theorem c7_counterexample :
    (fancytimeS 125 ⟨none, none, []⟩).2 ≠ ⟨none, none, []⟩ := by
  intro heq
  have h := congrArg JsGlobals.dur_sec heq
  simp [fancytimeS] at h

/-- C7 amended: both formatter functions are deterministic, their results
depend only on their arguments (not on any global state), they perform no
I/O (no Request is issued), and they leave the musics catalog unchanged;
but each call overwrites the two undeclared globals dur_sec and dur_min. -/
theorem c7_formatter_deterministic (s d : ℚ) (name hash : String)
    (g g2 : JsGlobals) :
    (fancytimeS s g).1 = (fancytimeS s g2).1 ∧
    (fancynameS name hash d g).1 = (fancynameS name hash d g2).1 ∧
    (fancytimeS s g).2.musics = g.musics ∧
    (fancynameS name hash d g).2.musics = g.musics ∧
    (fancytimeS s g).2.dur_sec = some (dur_secOf s) ∧
    (fancytimeS s g).2.dur_min = some (dur_minOf s) := by
  exact ⟨rfl, rfl, rfl, rfl, rfl, rfl⟩

/-- C8: the autoplay change listener issues exactly one request, a POST
/api/autoplay_set whose body is the bare checked boolean; it issues none of
the refresh reads (catalog, queue, current), and the catalog mapping, the
rendered queue list, the now-playing display and the page title are all
unchanged afterwards (fire-and-forget). -/
theorem c8_setautoplay_frame (b : Bool) (st : ClientState) :
    (autoplayChangeRun b st).1 = [.postAutoplaySet b] ∧
    (autoplayChangeRun b st).1.count Request.getMusics = 0 ∧
    (autoplayChangeRun b st).1.count Request.getQueue = 0 ∧
    (autoplayChangeRun b st).1.count Request.getCurrent = 0 ∧
    (autoplayChangeRun b st).2 = st := by
  refine ⟨rfl, ?_, ?_, ?_, rfl⟩ <;> simp [autoplayChangeRun, List.count_cons]

/-- C9 counterexample: the claim states that on a status refresh with an
empty current-track identifier the client resets the page title to its
default. In the legacy copy (part_000 line 87) the conditional operator
binds looser than +, so the tested condition is the always-truthy string
MusiSync-prefix ++ hash and the title expression always reads
musics[hash].name: with an empty hash and any catalog not containing the
empty key it throws a TypeError instead of producing the default title. -/
theorem c9_counterexample :
    part000_titleExpr [] ⟨"", false, 0, 0⟩
      = .error "TypeError: cannot read properties of undefined" := by
  rfl

/-- C9 amended: in src/static/script.js (lines 88-91) the claim holds: an
empty identifier renders the fixed Nothing state and resets the title to
the default MusiSync; a nonempty identifier present in the catalog sets the
title to MusiSync - name, which includes the current track name. (In the
legacy copy part_000 the title update instead throws, per the
counterexample.) -/
theorem c9_now_playing_render (musics : Catalog) (np : NpData) :
    (np.hash = "" → npUpdate musics np = .ok ("Nothing", "MusiSync")) ∧
    (∀ t : Track, np.hash ≠ "" → musics.find np.hash = some t →
      npUpdate musics np
        = .ok (pauseIconOf np.paused ++ " " ++ fancytime np.position ++ " | " ++
                 fancyname t.name np.hash np.duration,
               "MusiSync - " ++ t.name)) := by
  constructor
  · intro h
    unfold npUpdate
    rw [if_pos h]
  · intro t hne hf
    unfold npUpdate
    rw [if_neg hne, hf]

/-- Witness for C9: with catalog {h1 : (Song, 185)} and current track h1 at
position 42 the title becomes MusiSync - Song; with an empty identifier the
render is (Nothing, MusiSync). -/
theorem c9_witness :
    npUpdate [("h1", ⟨"Song", 185⟩)] ⟨"h1", false, 42, 185⟩
      = .ok (pauseIconOf false ++ " " ++ fancytime 42 ++ " | " ++
               fancyname "Song" "h1" 185,
             "MusiSync - " ++ "Song") ∧
    npUpdate [("h1", ⟨"Song", 185⟩)] ⟨"", false, 0, 0⟩
      = .ok ("Nothing", "MusiSync") :=
  ⟨(c9_now_playing_render [("h1", ⟨"Song", 185⟩)] ⟨"h1", false, 42, 185⟩).2
      ⟨"Song", 185⟩ (by decide) rfl,
   (c9_now_playing_render [("h1", ⟨"Song", 185⟩)] ⟨"", false, 0, 0⟩).1 rfl⟩

/-! Lengths of the literal decorations the two fancyname copies insert. -/

theorem len_deco1 : (" <b>&#x2039;" : String).length = 12 := by decide

theorem len_deco2 : ("&#x203a;</b>&#x3014;<u>" : String).length = 23 := by decide

theorem len_deco3 : ("</u>&#x3015;" : String).length = 12 := by decide

theorem len_deco4 : (" (" : String).length = 2 := by decide

theorem len_deco5 : (") [" : String).length = 3 := by decide

theorem len_deco6 : ("]" : String).length = 1 := by decide

theorem len_colon : (":" : String).length = 1 := by decide

/-- C10 counterexample: the claim states the two copies produce equal
display labels for every triple; already at (a, h, 0) they differ (the
decorations around the fingerprint and the duration are HTML entities in
script.js but plain parentheses and brackets in part_000). -/
theorem c10_counterexample :
    fancyname "a" "h" 0 ≠ part000_fancyname "a" "h" 0 := by
  intro heq
  have hlen := congrArg String.length heq
  simp only [fancyname, part000_fancyname, fancytime, dur_minOf, dur_secOf,
    String.length_append, len_deco1, len_deco2, len_deco3, len_deco4,
    len_deco5, len_deco6, len_colon] at hlen
  omega

/-- C10 amended: the two copies agree on the duration arithmetic (both
compute Math.round(d % 60) and Math.round(d / 40), zero-padded, as the
shared padStart2/jsRound terms in both definitions show) and on the
8-character fingerprint, but their full display labels are never equal: the
fixed decorations differ in length by 40 characters for every input
triple. -/
theorem c10_labels_never_equal (n h : String) (d : ℚ) :
    fancyname n h d ≠ part000_fancyname n h d := by
  intro heq
  have hlen := congrArg String.length heq
  simp only [fancyname, part000_fancyname, fancytime, dur_minOf, dur_secOf,
    String.length_append, len_deco1, len_deco2, len_deco3, len_deco4,
    len_deco5, len_deco6, len_colon] at hlen
  omega

/-- Witness for C10 at a second concrete triple. -/
theorem c10_witness : fancyname "b" "xy" 1 ≠ part000_fancyname "b" "xy" 1 :=
  c10_labels_never_equal "b" "xy" 1

end MediSync
